import Mathlib

/-!
Shallow embedding of `src/chip-atecc608/atecc608.c`, a Wokwi custom-chip
emulation of an ATECC608-class secure element.

The C module keeps a single static `ATECC608 device` struct.  We model it as
an explicit state value threaded through every operation.  Fixed-size byte
arrays (`uint8_t zone[N]`) are modelled as total functions `Nat → Nat`; only
indices below the zone size are ever consulted, matching the C bounds checks.
The process-wide `rand()` stream (seeded by `srand(time(NULL))` in
`atecc608_init`) is modelled by a stream field `randSeq : Nat → Nat` together
with a cursor `randIdx`; re-seeding installs a fresh arbitrary stream.
-/

namespace ATECC

/-- Command opcode constants from the C header block. -/
def CMD_COMMAND : Nat := 0x03

def CMD_RANDOM : Nat := 0x1B

def CMD_NONCE : Nat := 0x16

def CMD_GENKEY : Nat := 0x40

def CMD_SIGN : Nat := 0x41

def CMD_VERIFY : Nat := 0x45

def CMD_READ : Nat := 0x02

def CMD_WRITE : Nat := 0x12

def CMD_LOCK : Nat := 0x17

def CMD_INFO : Nat := 0x30

def ZONE_CONFIG : Nat := 0x00

def ZONE_OTP : Nat := 0x01

def ZONE_DATA : Nat := 0x02

def CONFIG_SIZE : Nat := 128

def OTP_SIZE : Nat := 64

def DATA_SIZE : Nat := 1024

def MAX_PACKET_SIZE : Nat := 128

/-- The `DeviceState` enum from the C source. -/
inductive DeviceState where
  | IDLE
  | SLEEP
  | ACTIVE
deriving DecidableEq, Repr

/-- The `ATECC608` device struct.  Byte arrays are functions from index to
byte value; `randSeq`/`randIdx` model the hidden `rand()` stream. -/
structure ATECC608 where
  state : DeviceState
  lastError : Nat
  configZone : Nat → Nat
  otpZone : Nat → Nat
  dataZone : Nat → Nat
  commandPacket : Nat → Nat
  responsePacket : Nat → Nat
  packetPos : Nat
  responsePos : Nat
  executionTime : Nat
  randSeq : Nat → Nat
  randIdx : Nat

/-- Read `len` consecutive bytes starting at `address` from a byte array
(the functional image of `memcpy(data, source + address, len)`). -/
def loadBytes (src : Nat → Nat) (address len : Nat) : List Nat :=
  (List.range len).map fun i => src (address + i)

/-- Overwrite the range `[address, address + data.length)` of a byte array
with `data` (the functional image of `memcpy(dest + address, data, len)`). -/
def storeBytes (dest : Nat → Nat) (address : Nat) (data : List Nat) : Nat → Nat :=
  fun i => if address ≤ i ∧ i < address + data.length then data.getD (i - address) 0 else dest i

/-- Model of `atecc608_init`: resets state, error, cursors and zones; writes the two
config defaults (`configZone[0] = 0x01`, `configZone[1] = 0x23`); re-seeds the
random stream.  `commandPacket`/`responsePacket` contents are NOT cleared by
the C code, so they are preserved here. -/
def atecc608_init (seed : Nat → Nat) (d : ATECC608) : ATECC608 :=
  { d with
    state := DeviceState.IDLE
    lastError := 0
    packetPos := 0
    responsePos := 0
    executionTime := 0
    configZone := fun i => if i = 0 then 0x01 else if i = 1 then 0x23 else 0xFF
    otpZone := fun _ => 0
    dataZone := fun _ => 0
    randSeq := seed
    randIdx := 0 }

/-- Model of `atecc608_reset`: it just calls `atecc608_init`. -/
def atecc608_reset (seed : Nat → Nat) (d : ATECC608) : ATECC608 :=
  atecc608_init seed d

/-- Model of `generateRandomNumber`: draws `length` bytes `rand() & 0xFF` from the
stream and advances the stream cursor. -/
def generateRandomNumber (d : ATECC608) (length : Nat) : List Nat × ATECC608 :=
  ((List.range length).map fun i => d.randSeq (d.randIdx + i) &&& 0xFF,
   { d with randIdx := d.randIdx + length })

/-- Model of `read(zone, address, data, len)`: 32-byte cap check first, then zone
selection by `zone & 0x03` (`% 4`), then bounds check, then copy-out.
Returns the bytes read (`none` on failure) and the updated device
(`lastError` is set on failure; zones are never mutated). -/
def read (zone address len : Nat) (d : ATECC608) : Option (List Nat) × ATECC608 :=
  if 32 < len then (none, { d with lastError := 1 })
  else if zone % 4 = 0 then
    if CONFIG_SIZE < address + len then (none, { d with lastError := 3 })
    else (some (loadBytes d.configZone address len), d)
  else if zone % 4 = 1 then
    if OTP_SIZE < address + len then (none, { d with lastError := 3 })
    else (some (loadBytes d.otpZone address len), d)
  else if zone % 4 = 2 then
    if DATA_SIZE < address + len then (none, { d with lastError := 3 })
    else (some (loadBytes d.dataZone address len), d)
  else (none, { d with lastError := 2 })

/-- Model of `write(zone, address, data, len)`: same validation as `read`; on success
overwrites the addressed range.  The `data` list stands for the C buffer of
`len` bytes, so `len = data.length`. -/
def write (zone address : Nat) (data : List Nat) (d : ATECC608) : Bool × ATECC608 :=
  if 32 < data.length then (false, { d with lastError := 1 })
  else if zone % 4 = 0 then
    if CONFIG_SIZE < address + data.length then (false, { d with lastError := 3 })
    else (true, { d with configZone := storeBytes d.configZone address data })
  else if zone % 4 = 1 then
    if OTP_SIZE < address + data.length then (false, { d with lastError := 3 })
    else (true, { d with otpZone := storeBytes d.otpZone address data })
  else if zone % 4 = 2 then
    if DATA_SIZE < address + data.length then (false, { d with lastError := 3 })
    else (true, { d with dataZone := storeBytes d.dataZone address data })
  else (false, { d with lastError := 2 })

/-- Model of `lockConfigZone`: unconditionally writes 0x00 to `configZone[87]`. -/
def lockConfigZone (d : ATECC608) : Bool × ATECC608 :=
  (true, { d with configZone := fun i => if i = 87 then 0x00 else d.configZone i })

/-- Model of `lockDataAndOTPZones`: unconditionally writes 0x00 to `configZone[86]`. -/
def lockDataAndOTPZones (d : ATECC608) : Bool × ATECC608 :=
  (true, { d with configZone := fun i => if i = 86 then 0x00 else d.configZone i })

/-- Model of `isConfigLocked`: tests `configZone[87] == 0x00`. -/
def isConfigLocked (d : ATECC608) : Bool :=
  d.configZone 87 == 0

/-- Model of `isDataAndOTPLocked`: tests `configZone[86] == 0x00`. -/
def isDataAndOTPLocked (d : ATECC608) : Bool :=
  d.configZone 86 == 0

/-- Model of `storeKey(key_id, key, key_type)`: slot bound check, then a 32-byte write
into the data zone at offset `32 * key_id`.  `key` stands for the 32-byte C
buffer; `key_type` is accepted but unused by the storage path. -/
def storeKey (key_id : Nat) (key : List Nat) (key_type : Nat) (d : ATECC608) : Bool × ATECC608 :=
  if 16 ≤ key_id then (false, { d with lastError := 8 })
  else write ZONE_DATA (32 * key_id) key d

/-- Model of `generatePrivateKey`: draws 32 random bytes and stores them via
`storeKey`. -/
def generatePrivateKey (key_id key_type : Nat) (d : ATECC608) : Bool × ATECC608 :=
  let r := generateRandomNumber d 32
  storeKey key_id r.1 key_type r.2

/-- Model of `computeHMAC(key_id, message, hmac)`: reads the 32-byte key at slot
`key_id` from the data zone and returns the byte-wise XOR with `message`
(which stands for the 32-byte C message buffer). -/
def computeHMAC (key_id : Nat) (message : List Nat) (d : ATECC608) : Option (List Nat) × ATECC608 :=
  match read ZONE_DATA (32 * key_id) 32 d with
  | (none, d') => (none, d')
  | (some key, d') =>
      (some ((List.range 32).map fun i => key.getD i 0 ^^^ message.getD i 0), d')

/-- Model of `deriveKey(parent_key_id, derived_key)`: reads the 32-byte parent key
and returns `parent[i] XOR (i+1)` for each `i < 32`. -/
def deriveKey (parent_key_id : Nat) (d : ATECC608) : Option (List Nat) × ATECC608 :=
  match read ZONE_DATA (32 * parent_key_id) 32 d with
  | (none, d') => (none, d')
  | (some parent_key, d') =>
      (some ((List.range 32).map fun i => parent_key.getD i 0 ^^^ (i + 1)), d')

/-- Model of `processCommand`: decodes the opcode at `commandPacket[2]` and acts on it.
`p1` (offset 3) and `p2` (offsets 4-5) are read by the C code but unused.
Only RANDOM produces a payload: 32 random bytes into `responsePacket[1..32]`,
then `setResponse` (a self-`memcpy`, contents unchanged) resets `responsePos`
to 0; `simulateExecutionTime` records the latency.  Unknown opcodes set
`lastError = 7`. -/
def processCommand (d : ATECC608) : ATECC608 :=
  let command := d.commandPacket 2
  if command = CMD_RANDOM then
    let r := generateRandomNumber d 32
    { r.2 with
      responsePacket := storeBytes r.2.responsePacket 1 r.1
      responsePos := 0
      executionTime := 23 }
  else if command = CMD_NONCE then { d with executionTime := 7 }
  else if command = CMD_GENKEY then { d with executionTime := 115 }
  else if command = CMD_SIGN then { d with executionTime := 60 }
  else if command = CMD_VERIFY then { d with executionTime := 72 }
  else if command = CMD_READ then { d with executionTime := 1 }
  else if command = CMD_WRITE then { d with executionTime := 26 }
  else if command = CMD_LOCK then { d with executionTime := 32 }
  else if command = CMD_INFO then { d with executionTime := 1 }
  else { d with lastError := 7 }

/-- Model of `atecc608_read_byte`: serves `responsePacket[responsePos++]` while the
cursor is below 128, otherwise returns 0 without moving the cursor. -/
def atecc608_read_byte (d : ATECC608) : Nat × ATECC608 :=
  if d.responsePos < MAX_PACKET_SIZE then
    (d.responsePacket d.responsePos, { d with responsePos := d.responsePos + 1 })
  else (0, d)

/-- Model of `atecc608_write_byte`, instrumented with the number of `processCommand`
invocations this call performs (0 or 1).  Faithful to the C control flow:
append the byte when the buffer is not full; if the cursor just became 1 and
the byte is the 0x03 word-address marker, reset the cursor; otherwise, if the
cursor is past 1 and `commandPacket[0]` equals the marker, dispatch when the
cursor equals the declared length `commandPacket[1]` and reset the cursor. -/
def atecc608_write_byte_aux (byte : Nat) (d : ATECC608) : ATECC608 × Nat :=
  let d1 :=
    if d.packetPos < MAX_PACKET_SIZE then
      { d with
        commandPacket := fun i => if i = d.packetPos then byte else d.commandPacket i
        packetPos := d.packetPos + 1 }
    else d
  if d1.packetPos = 1 then
    (if byte = 0x03 then { d1 with packetPos := 0 } else d1, 0)
  else if 1 < d1.packetPos ∧ d1.commandPacket 0 = CMD_COMMAND then
    if d1.packetPos = d1.commandPacket 1 then
      ({ processCommand d1 with packetPos := 0 }, 1)
    else (d1, 0)
  else (d1, 0)

/-- Model of `atecc608_write_byte` as the external collaborator sees it. -/
def atecc608_write_byte (byte : Nat) (d : ATECC608) : ATECC608 :=
  (atecc608_write_byte_aux byte d).1

/-- Deliver a byte sequence, counting the total number of dispatches
(`processCommand` invocations) performed along the way. -/
def deliverBytes (bytes : List Nat) (d : ATECC608) : ATECC608 × Nat :=
  bytes.foldl
    (fun acc b =>
      let r := atecc608_write_byte_aux b acc.1
      (r.1, acc.2 + r.2))
    (d, 0)

/-- The device right after program start: `static ATECC608 device` is
zero-initialized in C. -/
def zeroDevice : ATECC608 :=
  { state := DeviceState.IDLE
    lastError := 0
    configZone := fun _ => 0
    otpZone := fun _ => 0
    dataZone := fun _ => 0
    commandPacket := fun _ => 0
    responsePacket := fun _ => 0
    packetPos := 0
    responsePos := 0
    executionTime := 0
    randSeq := fun _ => 0
    randIdx := 0 }

/-- The device after `chip_init` calls `atecc608_init`, with an all-zero
random stream standing in for the arbitrary wall-clock seed. -/
def initialDevice : ATECC608 :=
  atecc608_init (fun _ => 0) zeroDevice

/-- A device whose response cursor has reached the 128-byte bound. -/
def drainedDevice : ATECC608 :=
  { initialDevice with responsePos := 128 }

/-- The three memory zones of two device values coincide. -/
def sameZones (d₁ d₂ : ATECC608) : Prop :=
  d₁.configZone = d₂.configZone ∧ d₁.otpZone = d₂.otpZone ∧ d₁.dataZone = d₂.dataZone

/-- The declared byte size of each valid zone tag. -/
def zoneSize (zone : Nat) : Nat :=
  if zone = 0 then CONFIG_SIZE else if zone = 1 then OTP_SIZE else DATA_SIZE

/-- The operations of the model, for stating invariants over arbitrary
operation sequences. -/
inductive Op where
  | readZone (zone address len : Nat)
  | writeZone (zone address : Nat) (data : List Nat)
  | lockConfig
  | lockDataOtp
  | storeKey (slot : Nat) (key : List Nat) (keyType : Nat)
  | generateKey (slot keyType : Nat)
  | combine (slot : Nat) (message : List Nat)
  | derive (slot : Nat)
  | dispatch
deriving DecidableEq

/-- Run one model operation, keeping only the resulting device state. -/
def runOp : Op → ATECC608 → ATECC608
  | Op.readZone z a len, d => (read z a len d).2
  | Op.writeZone z a data, d => (write z a data d).2
  | Op.lockConfig, d => (lockConfigZone d).2
  | Op.lockDataOtp, d => (lockDataAndOTPZones d).2
  | Op.storeKey s k t, d => (storeKey s k t d).2
  | Op.generateKey s t, d => (generatePrivateKey s t d).2
  | Op.combine s m, d => (computeHMAC s m d).2
  | Op.derive s, d => (deriveKey s d).2
  | Op.dispatch, d => processCommand d

/-- Run a sequence of model operations left to right. -/
def runOps (ops : List Op) (d : ATECC608) : ATECC608 :=
  ops.foldl (fun d op => runOp op d) d

/-- Whether an operation writes the config-zone byte at index `b`: only a
`writeZone` whose effective zone (tag masked with 0x03) is CONFIG and whose
range covers `b` does. -/
def touchesConfigByte (b : Nat) : Op → Bool
  | Op.writeZone z a data =>
      decide (z % 4 = 0) && decide (a ≤ b) && decide (b < a + data.length)
  | _ => false

theorem read_sameZones (z a len : Nat) (d : ATECC608) : sameZones (read z a len d).2 d := by
  unfold read
  split_ifs <;> simp [sameZones]

theorem write_fail_sameZones (z a : Nat) (data : List Nat) (d : ATECC608)
    (h : (write z a data d).1 = false) : sameZones (write z a data d).2 d := by
  unfold write at *
  split_ifs at * <;> simp_all [sameZones]

theorem write_configZone_b (z a b : Nat) (data : List Nat) (d : ATECC608)
    (h : ¬(z % 4 = 0 ∧ a ≤ b ∧ b < a + data.length)) :
    (write z a data d).2.configZone b = d.configZone b := by
  unfold write
  split_ifs with h1 h2 h3 h4 h5 h6 h7 <;> try rfl
  show storeBytes d.configZone a data b = d.configZone b
  unfold storeBytes
  rw [if_neg fun hc => h ⟨h2, hc⟩]

theorem write_configZone_ne0 (z a : Nat) (data : List Nat) (d : ATECC608)
    (hz : z % 4 ≠ 0) : (write z a data d).2.configZone = d.configZone := by
  funext b
  exact write_configZone_b z a b data d fun hc => hz hc.1

theorem storeKey_configZone (s : Nat) (k : List Nat) (t : Nat) (d : ATECC608) :
    (storeKey s k t d).2.configZone = d.configZone := by
  unfold storeKey
  split_ifs with hs
  · rfl
  · exact write_configZone_ne0 ZONE_DATA (32 * s) k d (by decide)

theorem generatePrivateKey_configZone (s t : Nat) (d : ATECC608) :
    (generatePrivateKey s t d).2.configZone = d.configZone := by
  unfold generatePrivateKey
  exact storeKey_configZone s _ t _

theorem computeHMAC_sameZones (s : Nat) (m : List Nat) (d : ATECC608) :
    sameZones (computeHMAC s m d).2 d := by
  unfold computeHMAC
  have h := read_sameZones ZONE_DATA (32 * s) 32 d
  rcases hr : read ZONE_DATA (32 * s) 32 d with ⟨o, d'⟩
  rw [hr] at h
  cases o <;> simpa using h

theorem deriveKey_sameZones (s : Nat) (d : ATECC608) :
    sameZones (deriveKey s d).2 d := by
  unfold deriveKey
  have h := read_sameZones ZONE_DATA (32 * s) 32 d
  rcases hr : read ZONE_DATA (32 * s) 32 d with ⟨o, d'⟩
  rw [hr] at h
  cases o <;> simpa using h

theorem processCommand_configZone (d : ATECC608) :
    (processCommand d).configZone = d.configZone := by
  simp only [processCommand]
  split_ifs <;> rfl

theorem runOp_configZero (b : Nat) (op : Op) (d : ATECC608)
    (hop : touchesConfigByte b op = false) (h : d.configZone b = 0) :
    (runOp op d).configZone b = 0 := by
  cases op with
  | readZone z a len =>
      simp only [runOp]
      rw [(read_sameZones z a len d).1]; exact h
  | writeZone z a data =>
      simp only [runOp]
      rw [write_configZone_b z a b data d ?hne]; exact h
      case hne =>
        intro hc
        have : touchesConfigByte b (Op.writeZone z a data) = true := by
          simp only [touchesConfigByte, Bool.and_eq_true, decide_eq_true_eq]
          exact ⟨⟨hc.1, hc.2.1⟩, hc.2.2⟩
        rw [this] at hop
        simp at hop
  | lockConfig =>
      show (if b = 87 then 0 else d.configZone b) = 0
      split_ifs with hb
      · rfl
      · exact h
  | lockDataOtp =>
      show (if b = 86 then 0 else d.configZone b) = 0
      split_ifs with hb
      · rfl
      · exact h
  | storeKey s k t =>
      simp only [runOp]
      rw [storeKey_configZone]; exact h
  | generateKey s t =>
      simp only [runOp]
      rw [generatePrivateKey_configZone]; exact h
  | combine s m =>
      simp only [runOp]
      rw [(computeHMAC_sameZones s m d).1]; exact h
  | derive s =>
      simp only [runOp]
      rw [(deriveKey_sameZones s d).1]; exact h
  | dispatch =>
      simp only [runOp]
      rw [processCommand_configZone]; exact h

theorem runOps_configZero (b : Nat) (ops : List Op) (d : ATECC608)
    (hops : ∀ op ∈ ops, touchesConfigByte b op = false) (h : d.configZone b = 0) :
    (runOps ops d).configZone b = 0 := by
  induction ops generalizing d with
  | nil => exact h
  | cons op rest ih =>
      have hstep : runOps (op :: rest) d = runOps rest (runOp op d) := rfl
      rw [hstep]
      exact ih (runOp op d)
        (fun o ho => hops o (List.mem_cons_of_mem op ho))
        (runOp_configZero b op d (hops op (List.mem_cons_self op rest)) h)

theorem read_success_state (z a len : Nat) (d : ATECC608) (out : List Nat)
    (h : (read z a len d).1 = some out) : (read z a len d).2 = d := by
  unfold read at *
  split_ifs at * <;> simp_all

theorem getD_map_range (n i : Nat) (f : Nat → Nat) (hi : i < n) :
    ((List.range n).map f).getD i 0 = f i := by
  rw [List.getD_eq_getElem ((List.range n).map f) 0 (by simpa using hi)]
  simp

theorem loadBytes_storeBytes (f : Nat → Nat) (a : Nat) (data : List Nat) :
    loadBytes (storeBytes f a data) a data.length = data := by
  apply List.ext_getElem
  · simp [loadBytes]
  · intro i h1 h2
    simp only [loadBytes, List.getElem_map, List.getElem_range]
    unfold storeBytes
    rw [if_pos ⟨Nat.le_add_right a i, by simp [loadBytes] at h1; omega⟩]
    rw [Nat.add_sub_cancel_left]
    exact List.getD_eq_getElem data 0 h2

/-- C1: the spec says the byte sequence `[0x03][0x03][0x1B][0x00][0x00][0x00]`
delivered through `atecc608_write_byte` triggers exactly one synchronous
dispatch (`processCommand`) after which the cursor resets to 0.  On the code,
resetting `packetPos` after the 0x03 word-address marker lets the next byte
overwrite `commandPacket[0]`, so the dispatch condition
`commandPacket[0] == 0x03` never holds: this sequence triggers ZERO
dispatches and leaves the cursor at 4. -/
theorem framing_dispatch_bug :
    (deliverBytes [0x03, 0x03, 0x1B, 0x00, 0x00, 0x00] initialDevice).2 = 0 ∧
    (deliverBytes [0x03, 0x03, 0x1B, 0x00, 0x00, 0x00] initialDevice).1.packetPos = 4 := by
  decide

/-- C2 counterexample: zone tag 4 is not in {CONFIG(0), OTP(1), DATA(2)}, yet
`read`/`write` mask it with 0x03 and treat it as CONFIG: both succeed,
`lastError` stays 0, and the write mutates config-zone byte 0 — contradicting
the claim that every tag outside {0,1,2} fails with `InvalidZone`. -/
theorem invalidZone_cex :
    (read 4 0 1 initialDevice).1 = some [0x01] ∧
    (read 4 0 1 initialDevice).2.lastError = 0 ∧
    (write 4 0 [0xAB] initialDevice).1 = true ∧
    (write 4 0 [0xAB] initialDevice).2.configZone 0 = 0xAB := by
  decide

/-- C2 amended: only zone tags congruent to 3 mod 4 (those not aliased to a
valid zone by the `& 0x03` mask) are rejected: for every such tag and every
address, length ≤ 32 and data of length ≤ 32, `read` and `write` fail with
`lastError = 2` (InvalidZone) and no zone memory is mutated. -/
theorem invalidZone_amended (z a len : Nat) (data : List Nat) (d : ATECC608)
    (hz : z % 4 = 3) (hlen : len ≤ 32) (hdata : data.length ≤ 32) :
    (read z a len d).1 = none ∧ (read z a len d).2.lastError = 2 ∧
    sameZones (read z a len d).2 d ∧
    (write z a data d).1 = false ∧ (write z a data d).2.lastError = 2 ∧
    sameZones (write z a data d).2 d := by
  have h1 : ¬ 32 < len := by omega
  have h2 : ¬ 32 < data.length := by omega
  simp [read, write, hz, h1, h2, sameZones]

/-- C2 amended witness at zone tag 3. -/
theorem invalidZone_amended_witness :
    (read 3 0 1 initialDevice).1 = none ∧ (read 3 0 1 initialDevice).2.lastError = 2 ∧
    sameZones (read 3 0 1 initialDevice).2 initialDevice ∧
    (write 3 0 [7] initialDevice).1 = false ∧ (write 3 0 [7] initialDevice).2.lastError = 2 ∧
    sameZones (write 3 0 [7] initialDevice).2 initialDevice :=
  invalidZone_amended 3 0 1 [7] initialDevice (by decide) (by decide) (by decide)

/-- C3 counterexample: the claim says no model operation can unlock a locked
config zone, but a `writeZone` to the config zone covering byte 87 can:
after `lockConfig()`, writing 0xFF at address 87 makes `isConfigLocked`
false again. -/
theorem lock_monotonic_cex :
    isConfigLocked (runOps [Op.writeZone 0 87 [0xFF]] (lockConfigZone initialDevice).2) = false := by
  decide

/-- C3 amended: lock status is monotonic under every model operation except a
config-zone write whose range covers the lock byte: after `lockConfig()`
(resp. `lockDataAndOtp()`), any sequence of operations containing no
`writeZone` to the config zone covering byte 87 (resp. 86) leaves
`isConfigLocked` (resp. `isDataAndOTPLocked`) true. -/
theorem lock_monotonic_amended (ops : List Op) (d : ATECC608) :
    ((∀ op ∈ ops, touchesConfigByte 87 op = false) →
      isConfigLocked (runOps ops (lockConfigZone d).2) = true) ∧
    ((∀ op ∈ ops, touchesConfigByte 86 op = false) →
      isDataAndOTPLocked (runOps ops (lockDataAndOTPZones d).2) = true) := by
  constructor
  · intro h
    have h0 : (lockConfigZone d).2.configZone 87 = 0 := by simp [lockConfigZone]
    have hz := runOps_configZero 87 ops (lockConfigZone d).2 h h0
    simp [isConfigLocked, hz]
  · intro h
    have h0 : (lockDataAndOTPZones d).2.configZone 86 = 0 := by simp [lockDataAndOTPZones]
    have hz := runOps_configZero 86 ops (lockDataAndOTPZones d).2 h h0
    simp [isDataAndOTPLocked, hz]

/-- C3 amended witness: a sequence of reads, key-store operations and
dispatches keeps both zones locked. -/
theorem lock_monotonic_amended_witness :
    isConfigLocked
      (runOps [Op.readZone 0 0 4, Op.storeKey 2 (List.replicate 32 9) 4, Op.dispatch]
        (lockConfigZone initialDevice).2) = true ∧
    isDataAndOTPLocked
      (runOps [Op.readZone 0 0 4, Op.storeKey 2 (List.replicate 32 9) 4, Op.dispatch]
        (lockDataAndOTPZones initialDevice).2) = true := by
  have h := lock_monotonic_amended
    [Op.readZone 0 0 4, Op.storeKey 2 (List.replicate 32 9) 4, Op.dispatch] initialDevice
  exact ⟨h.1 (by decide), h.2 (by decide)⟩

/-- C4: for every zone, a request of length > 32 fails with `lastError = 1`
(LengthTooLarge); for the valid zones CONFIG/OTP/DATA, a request with
length ≤ 32 but `address + length` beyond the zone size (128/64/1024) fails
with `lastError = 3` (OutOfRange); `read` never mutates any zone, and a
failing `write` leaves all three zones unchanged (no writes happen on
failure). -/
theorem zone_bounds_errors (z a len : Nat) (data : List Nat) (d : ATECC608) :
    (32 < len →
      (read z a len d).1 = none ∧ (read z a len d).2.lastError = 1) ∧
    (32 < data.length →
      (write z a data d).1 = false ∧ (write z a data d).2.lastError = 1) ∧
    (z ≤ 2 → len ≤ 32 → zoneSize z < a + len →
      (read z a len d).1 = none ∧ (read z a len d).2.lastError = 3) ∧
    (z ≤ 2 → data.length ≤ 32 → zoneSize z < a + data.length →
      (write z a data d).1 = false ∧ (write z a data d).2.lastError = 3) ∧
    sameZones (read z a len d).2 d ∧
    ((write z a data d).1 = false → sameZones (write z a data d).2 d) := by
  refine ⟨?_, ?_, ?_, ?_, read_sameZones z a len d, write_fail_sameZones z a data d⟩
  · intro h
    simp [read, h]
  · intro h
    simp [write, h]
  · intro hz hlen hsz
    have h1 : ¬ 32 < len := by omega
    interval_cases z
    · simp [zoneSize, CONFIG_SIZE] at hsz
      simp [read, h1, CONFIG_SIZE, hsz]
    · simp [zoneSize, OTP_SIZE] at hsz
      simp [read, h1, OTP_SIZE, hsz]
    · simp [zoneSize, DATA_SIZE] at hsz
      simp [read, h1, DATA_SIZE, hsz]
  · intro hz hlen hsz
    have h1 : ¬ 32 < data.length := by omega
    interval_cases z
    · simp [zoneSize, CONFIG_SIZE] at hsz
      simp [write, h1, CONFIG_SIZE, hsz]
    · simp [zoneSize, OTP_SIZE] at hsz
      simp [write, h1, OTP_SIZE, hsz]
    · simp [zoneSize, DATA_SIZE] at hsz
      simp [write, h1, DATA_SIZE, hsz]

/-- C4 witness: an oversize read fails with code 1, an out-of-range OTP write
fails with code 3 and mutates nothing. -/
theorem zone_bounds_errors_witness :
    (read 0 0 33 initialDevice).1 = none ∧ (read 0 0 33 initialDevice).2.lastError = 1 ∧
    (write 1 60 [1, 2, 3, 4, 5] initialDevice).1 = false ∧
    (write 1 60 [1, 2, 3, 4, 5] initialDevice).2.lastError = 3 ∧
    sameZones (write 1 60 [1, 2, 3, 4, 5] initialDevice).2 initialDevice := by
  have h1 := (zone_bounds_errors 0 0 33 [] initialDevice).1 (by decide)
  have h2 := zone_bounds_errors 1 60 33 [1, 2, 3, 4, 5] initialDevice
  have hw := h2.2.2.2.1 (by decide) (by decide) (by decide)
  exact ⟨h1.1, h1.2, hw.1, hw.2, h2.2.2.2.2.2 hw.1⟩

/-- C5: round-trip — for every valid zone tag (0 = CONFIG, 1 = OTP,
2 = DATA), data of length ≤ 32 and address with `address + length` within the
zone size, `write` succeeds and a `read` of the same range on the resulting
device returns exactly the written bytes. -/
theorem write_read_roundtrip (z a : Nat) (data : List Nat) (d : ATECC608)
    (hz : z ≤ 2) (hlen : data.length ≤ 32) (hb : a + data.length ≤ zoneSize z) :
    (write z a data d).1 = true ∧
    (read z a data.length (write z a data d).2).1 = some data := by
  have h1 : ¬ 32 < data.length := by omega
  interval_cases z
  · simp [zoneSize, CONFIG_SIZE] at hb
    have h2 : ¬ CONFIG_SIZE < a + data.length := by simp [CONFIG_SIZE]; omega
    simp [write, read, h1, h2, loadBytes_storeBytes]
  · simp [zoneSize, OTP_SIZE] at hb
    have h2 : ¬ OTP_SIZE < a + data.length := by simp [OTP_SIZE]; omega
    simp [write, read, h1, h2, loadBytes_storeBytes]
  · simp [zoneSize, DATA_SIZE] at hb
    have h2 : ¬ DATA_SIZE < a + data.length := by simp [DATA_SIZE]; omega
    simp [write, read, h1, h2, loadBytes_storeBytes]

/-- C5 witness: writing 32 bytes at data-zone address 64 and reading them
back returns exactly the written bytes. -/
theorem write_read_roundtrip_witness :
    (write 2 64 (List.replicate 32 7) initialDevice).1 = true ∧
    (read 2 64 (List.replicate 32 7).length
      (write 2 64 (List.replicate 32 7) initialDevice).2).1 = some (List.replicate 32 7) :=
  write_read_roundtrip 2 64 (List.replicate 32 7) initialDevice
    (by decide) (by decide) (by decide)

/-- C6 counterexample: the claim says `computeHMAC` and `deriveKey` reject
slot indices ≥ 16, but slot 16 succeeds on both (its 32-byte read at data
address 512 is in bounds). -/
theorem slot_bounds_cex :
    (computeHMAC 16 (List.replicate 32 0) initialDevice).1.isSome = true ∧
    (deriveKey 16 initialDevice).1.isSome = true := by
  decide

/-- C6 amended: `storeKey` (and hence `generateKey`) rejects every slot index
≥ 16 with `lastError = 8` (InvalidSlot); `computeHMAC` and `deriveKey` have
no slot check of their own — they succeed for slot indices up to 31 and fail
only from 32 on, with the data-zone bounds error `lastError = 3`
(OutOfRange), not InvalidSlot. -/
theorem slot_bounds_amended (s t : Nat) (key m : List Nat) (d : ATECC608)
    (hs : 16 ≤ s) :
    (storeKey s key t d).1 = false ∧ (storeKey s key t d).2.lastError = 8 ∧
    (generatePrivateKey s t d).1 = false ∧ (generatePrivateKey s t d).2.lastError = 8 ∧
    (32 ≤ s →
      (computeHMAC s m d).1 = none ∧ (computeHMAC s m d).2.lastError = 3 ∧
      (deriveKey s d).1 = none ∧ (deriveKey s d).2.lastError = 3) ∧
    (s ≤ 31 →
      (computeHMAC s m d).1.isSome = true ∧ (deriveKey s d).1.isSome = true) := by
  refine ⟨?_, ?_, ?_, ?_, ?_, ?_⟩
  · simp [storeKey, hs]
  · simp [storeKey, hs]
  · simp [generatePrivateKey, storeKey, hs]
  · simp [generatePrivateKey, storeKey, hs]
  · intro h32
    have hbig : DATA_SIZE < 32 * s + 32 := by
      simp only [DATA_SIZE]; omega
    simp [computeHMAC, deriveKey, read, ZONE_DATA, hbig]
  · intro h31
    have hsmall : ¬ DATA_SIZE < 32 * s + 32 := by
      simp only [DATA_SIZE]; omega
    simp [computeHMAC, deriveKey, read, ZONE_DATA, hsmall]

/-- C6 amended witness at slot 16. -/
theorem slot_bounds_amended_witness :
    (storeKey 16 (List.replicate 32 0) 4 initialDevice).1 = false ∧
    (storeKey 16 (List.replicate 32 0) 4 initialDevice).2.lastError = 8 ∧
    (generatePrivateKey 16 4 initialDevice).1 = false ∧
    (computeHMAC 16 (List.replicate 32 0) initialDevice).1.isSome = true ∧
    (deriveKey 16 initialDevice).1.isSome = true := by
  have h := slot_bounds_amended 16 4 (List.replicate 32 0) (List.replicate 32 0)
    initialDevice (by decide)
  exact ⟨h.1, h.2.1, h.2.2.1, (h.2.2.2.2.2 (by decide)).1, (h.2.2.2.2.2 (by decide)).2⟩

/-- C7: `deriveKey` is deterministic and correct — whenever the 32-byte
parent key at the given slot is readable, the returned child key is exactly
`parent[i] XOR (i+1)` byte-wise (a length-32 list), and a second call with
the device state unchanged (the call itself changes nothing) returns the
identical output. -/
theorem deriveKey_correct (s : Nat) (parent : List Nat) (d : ATECC608)
    (h : (read ZONE_DATA (32 * s) 32 d).1 = some parent) :
    (deriveKey s d).1 = some ((List.range 32).map fun i => parent.getD i 0 ^^^ (i + 1)) ∧
    ((List.range 32).map fun i => parent.getD i 0 ^^^ (i + 1)).length = 32 ∧
    (∀ i, i < 32 →
      ((List.range 32).map fun j => parent.getD j 0 ^^^ (j + 1)).getD i 0
        = parent.getD i 0 ^^^ (i + 1)) ∧
    (deriveKey s d).2 = d ∧
    (deriveKey s ((deriveKey s d).2)).1 = (deriveKey s d).1 := by
  have h2 := read_success_state ZONE_DATA (32 * s) 32 d parent h
  have hpair : read ZONE_DATA (32 * s) 32 d = (some parent, d) :=
    Prod.ext h h2
  have hstate : (deriveKey s d).2 = d := by simp [deriveKey, hpair]
  refine ⟨by simp [deriveKey, hpair], by simp, ?_, hstate, by rw [hstate]⟩
  intro i hi
  exact getD_map_range 32 i _ hi

/-- C7 witness at slot 0 of the freshly initialized device (all-zero key). -/
theorem deriveKey_correct_witness :
    (deriveKey 0 initialDevice).1
      = some ((List.range 32).map fun i => (List.replicate 32 0).getD i 0 ^^^ (i + 1)) ∧
    (deriveKey 0 ((deriveKey 0 initialDevice).2)).1 = (deriveKey 0 initialDevice).1 := by
  have h := deriveKey_correct 0 (List.replicate 32 0) initialDevice (by decide)
  exact ⟨h.1, h.2.2.2.2⟩

/-- C8: `computeHMAC` returns the byte-wise XOR of the stored 32-byte key and
the 32-byte message, and it is self-inverse: applying it again to its own
output with the key unchanged recovers the message. -/
theorem computeHMAC_xor_involutive (s : Nat) (key m : List Nat) (d : ATECC608)
    (hk : (read ZONE_DATA (32 * s) 32 d).1 = some key) (hm : m.length = 32) :
    (computeHMAC s m d).1
      = some ((List.range 32).map fun i => key.getD i 0 ^^^ m.getD i 0) ∧
    (computeHMAC s ((List.range 32).map fun i => key.getD i 0 ^^^ m.getD i 0)
      ((computeHMAC s m d).2)).1 = some m := by
  have h2 := read_success_state ZONE_DATA (32 * s) 32 d key hk
  have hpair : read ZONE_DATA (32 * s) 32 d = (some key, d) :=
    Prod.ext hk h2
  have hstate : (computeHMAC s m d).2 = d := by simp [computeHMAC, hpair]
  refine ⟨by simp [computeHMAC, hpair], ?_⟩
  rw [hstate]
  simp only [computeHMAC, hpair]
  congr 1
  apply List.ext_getElem
  · simp [hm]
  · intro i h1 h2'
    simp only [List.getElem_map, List.getElem_range]
    have hi : i < 32 := by simpa using h1
    rw [getD_map_range 32 i _ hi]
    rw [← Nat.xor_assoc, Nat.xor_self, Nat.zero_xor]
    exact List.getD_eq_getElem m 0 h2'

/-- C8 witness at slot 0 (all-zero key) with a constant message. -/
theorem computeHMAC_xor_involutive_witness :
    (computeHMAC 0 (List.replicate 32 5) initialDevice).1
      = some ((List.range 32).map fun i =>
          (List.replicate 32 0).getD i 0 ^^^ (List.replicate 32 5).getD i 0) ∧
    (computeHMAC 0
      ((List.range 32).map fun i =>
        (List.replicate 32 0).getD i 0 ^^^ (List.replicate 32 5).getD i 0)
      ((computeHMAC 0 (List.replicate 32 5) initialDevice).2)).1
      = some (List.replicate 32 5) :=
  computeHMAC_xor_involutive 0 (List.replicate 32 0) (List.replicate 32 5)
    initialDevice (by decide) (by decide)

/-- C9 counterexample: the claim says every byte of the config zone equals
0xFF after `atecc608_init`, but the code writes the defaults
`configZone[0] = 0x01` and `configZone[1] = 0x23` after the 0xFF memset. -/
theorem init_config_cex :
    initialDevice.configZone 0 = 0x01 ∧
    initialDevice.configZone 0 ≠ 0xFF ∧
    initialDevice.configZone 1 = 0x23 := by
  decide

/-- C9 amended: after `atecc608_init` (and `atecc608_reset`, which is the
same function) every config-zone byte from index 2 on equals 0xFF while
bytes 0 and 1 hold the defaults 0x01 and 0x23; the OTP and data zones are
all zero, `lastError = 0`, `state = IDLE`, and both packet cursors are 0. -/
theorem init_state_amended (seed : Nat → Nat) (d : ATECC608) :
    (∀ i, 2 ≤ i → (atecc608_init seed d).configZone i = 0xFF) ∧
    (atecc608_init seed d).configZone 0 = 0x01 ∧
    (atecc608_init seed d).configZone 1 = 0x23 ∧
    (∀ i, (atecc608_init seed d).otpZone i = 0) ∧
    (∀ i, (atecc608_init seed d).dataZone i = 0) ∧
    (atecc608_init seed d).lastError = 0 ∧
    (atecc608_init seed d).state = DeviceState.IDLE ∧
    (atecc608_init seed d).packetPos = 0 ∧
    (atecc608_init seed d).responsePos = 0 ∧
    atecc608_reset seed d = atecc608_init seed d := by
  refine ⟨fun i hi => ?_, rfl, rfl, fun i => rfl, fun i => rfl, rfl, rfl, rfl, rfl, rfl⟩
  show (if i = 0 then 0x01 else if i = 1 then 0x23 else 0xFF) = 0xFF
  rw [if_neg (by omega), if_neg (by omega)]

/-- C9 amended witness on the zero device. -/
theorem init_state_amended_witness :
    (atecc608_init (fun _ => 0) zeroDevice).configZone 87 = 0xFF ∧
    (atecc608_init (fun _ => 0) zeroDevice).configZone 0 = 0x01 ∧
    (atecc608_init (fun _ => 0) zeroDevice).otpZone 63 = 0 ∧
    (atecc608_init (fun _ => 0) zeroDevice).lastError = 0 := by
  have h := init_state_amended (fun _ => 0) zeroDevice
  exact ⟨h.1 87 (by decide), h.2.1, h.2.2.2.1 63, h.2.2.2.2.2.1⟩

/-- C10: `atecc608_read_byte` returns `responsePacket[responsePos]` and
advances the cursor by one while the cursor is below 128; once the cursor has
reached the 128-byte bound it returns 0 and leaves the device (cursor
included) unchanged — no wraparound. -/
theorem read_byte_spec (d : ATECC608) :
    (d.responsePos < MAX_PACKET_SIZE →
      (atecc608_read_byte d).1 = d.responsePacket d.responsePos ∧
      (atecc608_read_byte d).2.responsePos = d.responsePos + 1 ∧
      (atecc608_read_byte d).2.responsePacket = d.responsePacket) ∧
    (MAX_PACKET_SIZE ≤ d.responsePos →
      (atecc608_read_byte d).1 = 0 ∧ (atecc608_read_byte d).2 = d) := by
  constructor
  · intro h
    simp [atecc608_read_byte, h]
  · intro h
    simp [atecc608_read_byte, Nat.not_lt.mpr h]

/-- C10 witness: a fresh device serves byte 0 and advances; a drained device
(cursor at 128) returns 0 and stays put. -/
theorem read_byte_spec_witness :
    (atecc608_read_byte initialDevice).1 = initialDevice.responsePacket initialDevice.responsePos ∧
    (atecc608_read_byte initialDevice).2.responsePos = initialDevice.responsePos + 1 ∧
    (atecc608_read_byte drainedDevice).1 = 0 ∧
    (atecc608_read_byte drainedDevice).2 = drainedDevice := by
  have h1 := (read_byte_spec initialDevice).1 (by decide)
  have h2 := (read_byte_spec drainedDevice).2 (by decide)
  exact ⟨h1.1, h1.2.1, h2.1, h2.2⟩

end ATECC
